import Mathlib

/-!
# TLSential: the certificate API handlers

A shallow embedding of `api/certificate.go` (the `Get`, `Post` and `Delete`
handlers of `certHandler`) together with the part of Go's `net/http`
response writer the handlers rely on.

* Go `error` values are represented by their message (`err.Error()`), `nil`
  by `none`.
* The certificate service is an interface; it is a record of state-passing
  functions over an arbitrary state type, so every result below holds for
  every implementation.
* Every service invocation is appended to a log, so that "is invoked", "is
  invoked exactly once" and "makes no further call" are statements about the
  log.
* `log.Printf` only writes to the process log and is left out.
-/

set_option autoImplicit false

namespace TLSential

/-! ## Data model -/

/-- Go `time.Time`, reduced to an instant: seconds since the Unix epoch (UTC)
and nanoseconds within the second. The handlers only copy this value. -/
structure Time where
  sec : Int
  nsec : Nat
deriving DecidableEq, Repr

/-- Modelled from the spec: `model.Certificate` is declared outside the files
at hand. The fields are the ones of section 3 of the specification; byte payloads are
lists of byte values. -/
structure Certificate where
  ID : String
  CommonName : String
  Domains : List String
  CertURL : String
  CertStableURL : String
  PrivateKey : List Nat
  CertificateChain : List Nat
  Expiry : Time
  Issued : Bool
deriving DecidableEq, Repr

/-- `CertReq` is used for parsing API input. -/
structure CertReq where
  Domains : List String
deriving DecidableEq, Repr

/-- `CertResp` is used for exporting data via API responses. -/
structure CertResp where
  ID : String
  CommonName : String
  Domains : List String
  CertURL : String
  CertStableURL : String
  Expiry : Time
  Issued : Bool
deriving DecidableEq, Repr

/-! ## Status codes of `net/http` used by the handlers -/

def StatusOK : Nat := 200
def StatusCreated : Nat := 201
def StatusNoContent : Nat := 204
def StatusBadRequest : Nat := 400
def StatusNotFound : Nat := 404
def StatusInternalServerError : Nat := 500

/-- `http.StatusText`, on the codes above. -/
def StatusText (code : Nat) : String :=
  if code = 200 then "OK"
  else if code = 201 then "Created"
  else if code = 204 then "No Content"
  else if code = 400 then "Bad Request"
  else if code = 404 then "Not Found"
  else if code = 500 then "Internal Server Error"
  else ""

/-! ## The response writer of `net/http` -/

/-- State of an `http.ResponseWriter`.
`header` is the live map returned by `w.Header()`; `status` is the status line
once it has been written; `sent` is the header map as it stood when the status
line was written (changes to `header` after that moment are not transmitted);
`body` is what has been written to the body. -/
structure ResponseWriter where
  header : List (String × String)
  status : Option Nat
  sent : List (String × String)
  body : String
deriving DecidableEq, Repr

namespace ResponseWriter

/-- A writer on which nothing has been done yet. -/
def fresh : ResponseWriter := ⟨[], none, [], ""⟩

/-- `w.Header().Set(key, value)`: replaces whatever `key` was bound to. -/
def HeaderSet (w : ResponseWriter) (key value : String) : ResponseWriter :=
  { w with header := (key, value) :: w.header.filter (fun p => p.1 != key) }

/-- `w.WriteHeader(code)`: the first call fixes the status and the transmitted
headers; a later call is superfluous and changes nothing. -/
def WriteHeader (w : ResponseWriter) (code : Nat) : ResponseWriter :=
  match w.status with
  | some _ => w
  | none => { w with status := some code, sent := w.header }

/-- Whether a response with this status may carry a body. -/
def bodyAllowedForStatus (code : Nat) : Bool :=
  if 100 ≤ code ∧ code ≤ 199 then false
  else if code = 204 then false
  else if code = 304 then false
  else true

/-- `w.Write(data)`: writes the status line with 200 when none was written,
then appends to the body when the status allows one. -/
def Write (w : ResponseWriter) (data : String) : ResponseWriter :=
  let w1 := w.WriteHeader StatusOK
  match w1.status with
  | some code => if bodyAllowedForStatus code then { w1 with body := w1.body ++ data } else w1
  | none => w1

/-- `http.Error(w, error, code)`. -/
def Error (w : ResponseWriter) (error : String) (code : Nat) : ResponseWriter :=
  let w1 := w.HeaderSet "Content-Type" "text/plain; charset=utf-8"
  let w2 := w1.HeaderSet "X-Content-Type-Options" "nosniff"
  let w3 := w2.WriteHeader code
  w3.Write (error ++ "\n")

/-- `json.NewEncoder(w).Encode(v)`, given the outcome of marshalling `v`: a
value that cannot be marshalled yields the error and writes nothing, otherwise
the document and a newline are written. -/
def Encode (w : ResponseWriter) (marshalled : Except String String) :
    Option String × ResponseWriter :=
  match marshalled with
  | .error err => (some err, w)
  | .ok doc => (none, w.Write (doc ++ "\n"))

/-- The value a header is bound to in a header map. -/
def lookup (h : List (String × String)) (key : String) : Option String :=
  (h.find? (fun p => p.1 == key)).map (fun p => p.2)

end ResponseWriter

/-! ## Collaborators of the handlers -/

/-- One invocation of the certificate service. -/
inductive Call where
  | AllCerts
  | Cert (id : String)
  | SaveCert (c : Certificate)
  | DeleteCert (id : String)
  | DeleteAllCerts
deriving DecidableEq, Repr

/-- Modelled from the spec: the interface `certificate.Service` is declared
outside the files at hand; its five operations are the ones of section 4.1 of the
specification, with the shapes the handlers use them at. A lookup returns a
certificate pointer and an error, either of which may be nil. `SaveCert`
receives a pointer, so it also returns the certificate as it stands after
the call. -/
structure Service (σ : Type) where
  AllCerts : σ → (List Certificate × Option String) × σ
  Cert : String → σ → (Option Certificate × Option String) × σ
  SaveCert : Certificate → σ → (Certificate × Option String) × σ
  DeleteCert : String → σ → Option String × σ
  DeleteAllCerts : σ → Option String × σ

/-- What the handlers use and `api/certificate.go` does not define.
`cs` is the field of `certHandler`; `NewCertificate` is `model.NewCertificate`;
`ErrBodyRequired` is the message of the package-level error of that name;
`Decode` is `json.NewDecoder(body).Decode` into a `CertReq`; `Marshal` and
`MarshalList` are `encoding/json` marshalling of a `*CertResp` and of a
`[]*CertResp`. -/
structure Env (σ : Type) where
  cs : Service σ
  NewCertificate : List String → Certificate
  ErrBodyRequired : String
  Decode : String → Except String CertReq
  Marshal : CertResp → Except String String
  MarshalList : List CertResp → Except String String

/-- An HTTP request as far as the handlers read it: the route variables of
`mux.Vars` (a missing key reads as the empty string) and the body, which may
be nil. -/
structure Request where
  Vars : String → String
  Body : Option String

/-- A handler run in progress: the state of the certificate service, the
service invocations made so far, oldest first, and the response writer. -/
structure Exec (σ : Type) where
  st : σ
  calls : List Call
  w : ResponseWriter

namespace Exec

variable {σ : Type}

/-- The start of a handler run on service state `s`. -/
def start (s : σ) : Exec σ := ⟨s, [], ResponseWriter.fresh⟩

def AllCerts (cs : Service σ) (x : Exec σ) : (List Certificate × Option String) × Exec σ :=
  ((cs.AllCerts x.st).1, { x with st := (cs.AllCerts x.st).2, calls := x.calls ++ [Call.AllCerts] })

def Cert (cs : Service σ) (id : String) (x : Exec σ) :
    (Option Certificate × Option String) × Exec σ :=
  ((cs.Cert id x.st).1, { x with st := (cs.Cert id x.st).2, calls := x.calls ++ [Call.Cert id] })

def SaveCert (cs : Service σ) (c : Certificate) (x : Exec σ) :
    (Certificate × Option String) × Exec σ :=
  ((cs.SaveCert c x.st).1,
    { x with st := (cs.SaveCert c x.st).2, calls := x.calls ++ [Call.SaveCert c] })

def DeleteCert (cs : Service σ) (id : String) (x : Exec σ) : Option String × Exec σ :=
  ((cs.DeleteCert id x.st).1,
    { x with st := (cs.DeleteCert id x.st).2, calls := x.calls ++ [Call.DeleteCert id] })

def DeleteAllCerts (cs : Service σ) (x : Exec σ) : Option String × Exec σ :=
  ((cs.DeleteAllCerts x.st).1,
    { x with st := (cs.DeleteAllCerts x.st).2, calls := x.calls ++ [Call.DeleteAllCerts] })

/-- Apply a response-writer operation. -/
def reply (x : Exec σ) (f : ResponseWriter → ResponseWriter) : Exec σ :=
  { x with w := f x.w }

end Exec

/-! ## The handlers -/

section Handlers

variable {σ : Type}

/-- `certHandler.Delete`. -/
def Delete (env : Env σ) (r : Request) (x : Exec σ) : Exec σ :=
  let id := r.Vars "id"
  if id = "" then
    match Exec.DeleteAllCerts env.cs x with
    | (some err, x1) => x1.reply (fun w => w.Error err StatusInternalServerError)
    | (none, x1) => x1.reply (fun w => w.WriteHeader StatusNoContent)
  else
    match Exec.Cert env.cs id x with
    | ((_, some err), x1) => x1.reply (fun w => w.Error err StatusInternalServerError)
    | ((none, none), x1) =>
      x1.reply (fun w =>
        (w.WriteHeader StatusNotFound).Error (StatusText StatusNotFound) StatusNotFound)
    | ((some _, none), x1) =>
      match Exec.DeleteCert env.cs id x1 with
      | (some err, x2) => x2.reply (fun w => w.Error err StatusInternalServerError)
      | (none, x2) => x2.reply (fun w => w.WriteHeader StatusNoContent)

/-- The loop of `certHandler.Get` that builds `crs` from `certs`, one
`append` per certificate. -/
def buildList (certs : List Certificate) : List CertResp :=
  certs.foldl
    (fun crs c =>
      crs ++ [{ ID := c.ID, CommonName := c.CommonName, Domains := c.Domains,
                CertURL := c.CertURL, CertStableURL := c.CertStableURL,
                Expiry := c.Expiry, Issued := c.Issued }])
    []

/-- `certHandler.Get`. -/
def Get (env : Env σ) (r : Request) (x : Exec σ) : Exec σ :=
  let id := r.Vars "id"
  if id = "" then
    match Exec.AllCerts env.cs x with
    | ((_, some err), x1) => x1.reply (fun w => w.Error err StatusInternalServerError)
    | ((certs, none), x1) =>
      let crs := buildList certs
      let x2 := x1.reply (fun w => w.WriteHeader StatusOK)
      let x3 := x2.reply (fun w => w.HeaderSet "Content-Type" "application/json")
      match x3.w.Encode (env.MarshalList crs) with
      | (some err, w4) => { x3 with w := w4.Error err StatusInternalServerError }
      | (none, w4) => { x3 with w := w4 }
  else
    match Exec.Cert env.cs id x with
    | ((_, some err), x1) => x1.reply (fun w => w.Error err StatusInternalServerError)
    | ((none, none), x1) =>
      x1.reply (fun w => w.Error (StatusText StatusNotFound) StatusNotFound)
    | ((some c, none), x1) =>
      let cr : CertResp :=
        { ID := c.ID, CommonName := c.CommonName, Domains := c.Domains,
          CertURL := c.CertURL, CertStableURL := c.CertStableURL,
          Expiry := c.Expiry, Issued := c.Issued }
      let x2 := x1.reply (fun w => w.WriteHeader StatusOK)
      let x3 := x2.reply (fun w => w.HeaderSet "Content-Type" "application/json")
      match x3.w.Encode (env.Marshal cr) with
      | (some err, w4) => { x3 with w := w4.Error err StatusInternalServerError }
      | (none, w4) => { x3 with w := w4 }

/-- `certHandler.Post`. After a successful decode `err` is nil, so the test
of `err` that follows `model.NewCertificate` never fires; it is kept as the
match on `err0`. -/
def Post (env : Env σ) (r : Request) (x : Exec σ) : Exec σ :=
  match r.Body with
  | none => x.reply (fun w => w.Error env.ErrBodyRequired StatusBadRequest)
  | some body =>
    match env.Decode body with
    | .error err => x.reply (fun w => w.Error err StatusBadRequest)
    | .ok creq =>
      let err0 : Option String := none
      let c := env.NewCertificate creq.Domains
      match err0 with
      | some err => x.reply (fun w => w.Error err StatusInternalServerError)
      | none =>
        match Exec.SaveCert env.cs c x with
        | ((_, some err), x1) => x1.reply (fun w => w.Error err StatusInternalServerError)
        | ((c1, none), x1) =>
          let cresp : CertResp :=
            { ID := c1.ID, CommonName := c1.CommonName, Domains := c1.Domains,
              CertURL := c1.CertURL, CertStableURL := c1.CertStableURL,
              Expiry := c1.Expiry, Issued := c1.Issued }
          match env.Marshal cresp with
          | .error err => x1.reply (fun w => w.Error err StatusInternalServerError)
          | .ok out =>
            let x2 := x1.reply (fun w => w.WriteHeader StatusCreated)
            let x3 := x2.reply (fun w => w.HeaderSet "Content-Type" "application/json")
            x3.reply (fun w => w.Write out)

end Handlers

/-! ## The projection named by the specification -/

/-- Spec-side definition, to compare the handlers with: the reduced external
projection of section 6 of the specification, which includes only ID, CommonName, Domains,
CertURL, CertStableURL, Expiry and Issued. -/
def Projection (c : Certificate) : CertResp :=
  ⟨c.ID, c.CommonName, c.Domains, c.CertURL, c.CertStableURL, c.Expiry, c.Issued⟩

/-- Two certificates agree on the seven fields of the projection; nothing is
asked of `PrivateKey` and `CertificateChain`. -/
def AgreePublic (c1 c2 : Certificate) : Prop :=
  c1.ID = c2.ID ∧ c1.CommonName = c2.CommonName ∧ c1.Domains = c2.Domains ∧
    c1.CertURL = c2.CertURL ∧ c1.CertStableURL = c2.CertStableURL ∧
    c1.Expiry = c2.Expiry ∧ c1.Issued = c2.Issued

/-! ## Concrete collaborators, used to run the handlers on examples -/

/-- The zero value of `time.Time`: 1 January of year 1, 00:00:00 UTC. -/
def Time.zero : Time := ⟨-62135596800, 0⟩

/-- Whether the year of an instant (UTC) lies in 0..9999, the range
`Time.MarshalJSON` accepts: from 0000-01-01T00:00:00Z to
9999-12-31T23:59:59Z. -/
def Time.yearInRange (t : Time) : Bool :=
  decide (-62167219200 ≤ t.sec) && decide (t.sec ≤ 253402300799)

/-- Marshalling of a `CertResp` as `encoding/json` decides it: the only field
that can fail is `Expiry`, whose year must lie in 0..9999. The document is
abbreviated to the ID; the handlers never inspect it. -/
def sampleMarshal (v : CertResp) : Except String String :=
  if v.Expiry.yearInRange then .ok v.ID
  else .error
    "json: error calling MarshalJSON for type time.Time: Time.MarshalJSON: year outside of range [0,9999]"

/-- Marshalling of a list of `CertResp`: fails as soon as one element does.
The list the handler builds from no certificate at all is the nil slice,
whose document is `null`; otherwise the documents are abbreviated as in
`sampleMarshal`. -/
def sampleMarshalList (vs : List CertResp) : Except String String :=
  if vs.all (fun v => v.Expiry.yearInRange) then
    (if vs.isEmpty then .ok "null"
     else .ok ("[" ++ String.intercalate "," (vs.map (fun v => v.ID)) ++ "]"))
  else .error
    "json: error calling MarshalJSON for type time.Time: Time.MarshalJSON: year outside of range [0,9999]"

/-- A decoder that knows two request bodies: the empty object, which leaves
`Domains` absent, and an object with one domain. -/
def sampleDecode (body : String) : Except String CertReq :=
  if body = "\x7b\x7d" then .ok ⟨[]⟩
  else if body = "\x7b\"Domains\":[\"example.com\"]\x7d" then .ok ⟨["example.com"]⟩
  else .error "invalid character in request body"

/-- Modelled from the spec: `model.NewCertificate` is defined outside the files
at hand. Section 3: the common name is the first entry of `Domains`, the record starts
not issued with `Expiry` unset and without key or chain; the ID is generated
by the service when absent. -/
def sampleNewCertificate (domains : List String) : Certificate :=
  { ID := "", CommonName := domains.headD "", Domains := domains, CertURL := "",
    CertStableURL := "", PrivateKey := [], CertificateChain := [],
    Expiry := Time.zero, Issued := false }

/-- An in-memory certificate service that never fails. A saved certificate
without ID is given one from the number of stored certificates. -/
def memStore : Service (List Certificate) where
  AllCerts := fun s => ((s, none), s)
  Cert := fun id s => ((s.find? (fun c => c.ID == id), none), s)
  SaveCert := fun c s =>
    let c1 := if c.ID = "" then { c with ID := "cert-" ++ toString s.length } else c
    ((c1, none), s.filter (fun d => d.ID != c1.ID) ++ [c1])
  DeleteCert := fun id s => (none, s.filter (fun c => c.ID != id))
  DeleteAllCerts := fun _ => (none, [])

/-- An in-memory certificate service whose store is read-only: lookups
succeed, every modification fails. -/
def readOnlyStore : Service (List Certificate) where
  AllCerts := fun s => ((s, none), s)
  Cert := fun id s => ((s.find? (fun c => c.ID == id), none), s)
  SaveCert := fun c s => ((c, some "store is read-only"), s)
  DeleteCert := fun _ s => (some "store is read-only", s)
  DeleteAllCerts := fun s => (some "store is read-only", s)

/-- A certificate service whose store is unreachable: every operation fails. -/
def downStore : Service (List Certificate) where
  AllCerts := fun s => (([], some "store is down"), s)
  Cert := fun _ s => ((none, some "store is down"), s)
  SaveCert := fun c s => ((c, some "store is down"), s)
  DeleteCert := fun _ s => (some "store is down", s)
  DeleteAllCerts := fun s => (some "store is down", s)

/-- An in-memory certificate service that issues while it saves: the saved
certificate comes back issued, with its URLs, key and chain, and with an
expiry at 10000-01-01T00:00:00Z, one second past the range JSON accepts. The
record satisfies the invariant of section 3 of the specification (issued, a
well-defined expiry, a non-empty chain). -/
def longLivedStore : Service (List Certificate) where
  AllCerts := fun s => ((s, none), s)
  Cert := fun id s => ((s.find? (fun c => c.ID == id), none), s)
  SaveCert := fun c s =>
    let c1 := { c with ID := "cert-0", CertURL := "https://ca.test/cert/0",
                       CertStableURL := "https://ca.test/stable/0",
                       PrivateKey := [1, 2, 3], CertificateChain := [4, 5, 6],
                       Expiry := ⟨253402300800, 0⟩, Issued := true }
    ((c1, none), s ++ [c1])
  DeleteCert := fun id s => (none, s.filter (fun c => c.ID != id))
  DeleteAllCerts := fun _ => (none, [])

/-- The environment around a given certificate service. -/
def sampleEnv (cs : Service (List Certificate)) : Env (List Certificate) :=
  ⟨cs, sampleNewCertificate, "request body required", sampleDecode, sampleMarshal,
    sampleMarshalList⟩

/-- A request with the given `id` route variable and body. -/
def sampleRequest (id : String) (body : Option String) : Request :=
  ⟨fun key => if key = "id" then id else "", body⟩

/-- A stored, issued certificate. -/
def sampleCert : Certificate :=
  { ID := "c1", CommonName := "example.com", Domains := ["example.com", "www.example.com"],
    CertURL := "https://ca.test/cert/1", CertStableURL := "https://ca.test/stable/1",
    PrivateKey := [1, 2, 3], CertificateChain := [4, 5, 6],
    Expiry := ⟨1900000000, 0⟩, Issued := true }

/-- The same certificate with other key material and chain. -/
def sampleCertRekeyed : Certificate :=
  { sampleCert with PrivateKey := [9, 9], CertificateChain := [7, 8] }

/-- A stored, issued certificate whose expiry is 10000-01-01T00:00:00Z. -/
def sampleCertLongLived : Certificate :=
  { ID := "c2", CommonName := "example.org", Domains := ["example.org"],
    CertURL := "https://ca.test/cert/2", CertStableURL := "https://ca.test/stable/2",
    PrivateKey := [1, 2, 3], CertificateChain := [4, 5, 6],
    Expiry := ⟨253402300800, 0⟩, Issued := true }

/-! ## Shorthands for the statements -/

/-- The writer at the end of a successful lookup or listing in `Get`, as a
function of what marshalling the response object gave: status 200, then the
content type, then the encoder, then `http.Error` when the encoder failed. -/
def sendJSON (marshalled : Except String String) : ResponseWriter :=
  match ((ResponseWriter.fresh.WriteHeader StatusOK).HeaderSet "Content-Type"
      "application/json").Encode marshalled with
  | (some err, w4) => w4.Error err StatusInternalServerError
  | (none, w4) => w4

/-- The writer at the end of a successful `Post`, given the marshalled
document: status 201, then the content type, then the document. -/
def sendCreated (out : String) : ResponseWriter :=
  (((ResponseWriter.fresh.WriteHeader StatusCreated).HeaderSet "Content-Type"
    "application/json").Write out)

/-! ## Results -/

section Results

variable {σ : Type}

/-! ### The response writer -/

theorem Error_fresh_status (e : String) (code : Nat) :
    (ResponseWriter.fresh.Error e code).status = some code := by
  simp [ResponseWriter.Error, ResponseWriter.WriteHeader, ResponseWriter.HeaderSet,
    ResponseWriter.Write, ResponseWriter.fresh]
  split <;> rfl

theorem Error_fresh_body (e : String) (code : Nat)
    (h : ResponseWriter.bodyAllowedForStatus code = true) :
    (ResponseWriter.fresh.Error e code).body = e ++ "\n" := by
  simp [ResponseWriter.Error, ResponseWriter.WriteHeader, ResponseWriter.HeaderSet,
    ResponseWriter.Write, ResponseWriter.fresh, h]

/-! ### The paths of `Delete` -/

theorem Delete_all_err (env : Env σ) (r : Request) (s t : σ) (e : String)
    (hid : r.Vars "id" = "") (h : env.cs.DeleteAllCerts s = (some e, t)) :
    Delete env r (Exec.start s) =
      ⟨t, [Call.DeleteAllCerts], ResponseWriter.fresh.Error e StatusInternalServerError⟩ := by
  simp [Delete, hid, Exec.DeleteAllCerts, Exec.start, Exec.reply, h]

theorem Delete_all_ok (env : Env σ) (r : Request) (s t : σ)
    (hid : r.Vars "id" = "") (h : env.cs.DeleteAllCerts s = (none, t)) :
    Delete env r (Exec.start s) =
      ⟨t, [Call.DeleteAllCerts], ResponseWriter.fresh.WriteHeader StatusNoContent⟩ := by
  simp [Delete, hid, Exec.DeleteAllCerts, Exec.start, Exec.reply, h]

theorem Delete_lookup_err (env : Env σ) (r : Request) (s t : σ) (u : Option Certificate)
    (e : String) (hid : r.Vars "id" ≠ "")
    (h : env.cs.Cert (r.Vars "id") s = ((u, some e), t)) :
    Delete env r (Exec.start s) =
      ⟨t, [Call.Cert (r.Vars "id")],
        ResponseWriter.fresh.Error e StatusInternalServerError⟩ := by
  simp [Delete, hid, Exec.Cert, Exec.start, Exec.reply, h]

theorem Delete_absent (env : Env σ) (r : Request) (s t : σ)
    (hid : r.Vars "id" ≠ "") (h : env.cs.Cert (r.Vars "id") s = ((none, none), t)) :
    Delete env r (Exec.start s) =
      ⟨t, [Call.Cert (r.Vars "id")],
        (ResponseWriter.fresh.WriteHeader StatusNotFound).Error
          (StatusText StatusNotFound) StatusNotFound⟩ := by
  simp [Delete, hid, Exec.Cert, Exec.start, Exec.reply, h]

theorem Delete_found_err (env : Env σ) (r : Request) (s t t2 : σ) (u : Certificate)
    (e : String) (hid : r.Vars "id" ≠ "")
    (h : env.cs.Cert (r.Vars "id") s = ((some u, none), t))
    (hd : env.cs.DeleteCert (r.Vars "id") t = (some e, t2)) :
    Delete env r (Exec.start s) =
      ⟨t2, [Call.Cert (r.Vars "id"), Call.DeleteCert (r.Vars "id")],
        ResponseWriter.fresh.Error e StatusInternalServerError⟩ := by
  simp [Delete, hid, Exec.Cert, Exec.DeleteCert, Exec.start, Exec.reply, h, hd]

theorem Delete_found_ok (env : Env σ) (r : Request) (s t t2 : σ) (u : Certificate)
    (hid : r.Vars "id" ≠ "")
    (h : env.cs.Cert (r.Vars "id") s = ((some u, none), t))
    (hd : env.cs.DeleteCert (r.Vars "id") t = (none, t2)) :
    Delete env r (Exec.start s) =
      ⟨t2, [Call.Cert (r.Vars "id"), Call.DeleteCert (r.Vars "id")],
        ResponseWriter.fresh.WriteHeader StatusNoContent⟩ := by
  simp [Delete, hid, Exec.Cert, Exec.DeleteCert, Exec.start, Exec.reply, h, hd]

/-! ### The paths of `Get` -/

theorem Get_all_err (env : Env σ) (r : Request) (s t : σ) (l : List Certificate) (e : String)
    (hid : r.Vars "id" = "") (h : env.cs.AllCerts s = ((l, some e), t)) :
    Get env r (Exec.start s) =
      ⟨t, [Call.AllCerts], ResponseWriter.fresh.Error e StatusInternalServerError⟩ := by
  simp [Get, hid, Exec.AllCerts, Exec.start, Exec.reply, h]

theorem Get_all_ok (env : Env σ) (r : Request) (s t : σ) (l : List Certificate)
    (hid : r.Vars "id" = "") (h : env.cs.AllCerts s = ((l, none), t)) :
    Get env r (Exec.start s) =
      ⟨t, [Call.AllCerts], sendJSON (env.MarshalList (buildList l))⟩ := by
  simp only [Get, hid, Exec.AllCerts, Exec.start, Exec.reply, h, sendJSON, if_true]
  cases hm : env.MarshalList (buildList l) <;>
    simp [ResponseWriter.Encode, hm]

theorem Get_lookup_err (env : Env σ) (r : Request) (s t : σ) (u : Option Certificate)
    (e : String) (hid : r.Vars "id" ≠ "")
    (h : env.cs.Cert (r.Vars "id") s = ((u, some e), t)) :
    Get env r (Exec.start s) =
      ⟨t, [Call.Cert (r.Vars "id")],
        ResponseWriter.fresh.Error e StatusInternalServerError⟩ := by
  simp [Get, hid, Exec.Cert, Exec.start, Exec.reply, h]

theorem Get_absent (env : Env σ) (r : Request) (s t : σ)
    (hid : r.Vars "id" ≠ "") (h : env.cs.Cert (r.Vars "id") s = ((none, none), t)) :
    Get env r (Exec.start s) =
      ⟨t, [Call.Cert (r.Vars "id")],
        ResponseWriter.fresh.Error (StatusText StatusNotFound) StatusNotFound⟩ := by
  simp [Get, hid, Exec.Cert, Exec.start, Exec.reply, h]

theorem Get_found (env : Env σ) (r : Request) (s t : σ) (c : Certificate)
    (hid : r.Vars "id" ≠ "") (h : env.cs.Cert (r.Vars "id") s = ((some c, none), t)) :
    Get env r (Exec.start s) =
      ⟨t, [Call.Cert (r.Vars "id")], sendJSON (env.Marshal (Projection c))⟩ := by
  simp only [Get, hid, Exec.Cert, Exec.start, Exec.reply, h, sendJSON, if_false, Projection]
  cases hm : env.Marshal ⟨c.ID, c.CommonName, c.Domains, c.CertURL, c.CertStableURL,
      c.Expiry, c.Issued⟩ <;>
    simp [ResponseWriter.Encode, hm]

theorem sendJSON_status (m : Except String String) : (sendJSON m).status = some 200 := by
  cases m <;>
    simp [sendJSON, ResponseWriter.Encode, ResponseWriter.Error, ResponseWriter.WriteHeader,
      ResponseWriter.HeaderSet, ResponseWriter.Write, ResponseWriter.fresh, StatusOK,
      ResponseWriter.bodyAllowedForStatus]

theorem sendJSON_body_ok (doc : String) : (sendJSON (.ok doc)).body = doc ++ "\n" := by
  simp [sendJSON, ResponseWriter.Encode, ResponseWriter.WriteHeader,
    ResponseWriter.HeaderSet, ResponseWriter.Write, ResponseWriter.fresh, StatusOK,
    ResponseWriter.bodyAllowedForStatus]

theorem sendJSON_body_error (e : String) : (sendJSON (.error e)).body = e ++ "\n" := by
  simp [sendJSON, ResponseWriter.Encode, ResponseWriter.Error, ResponseWriter.WriteHeader,
    ResponseWriter.HeaderSet, ResponseWriter.Write, ResponseWriter.fresh, StatusOK,
    ResponseWriter.bodyAllowedForStatus]

theorem sendJSON_sent (m : Except String String) : (sendJSON m).sent = [] := by
  cases m <;>
    simp [sendJSON, ResponseWriter.Encode, ResponseWriter.Error, ResponseWriter.WriteHeader,
      ResponseWriter.HeaderSet, ResponseWriter.Write, ResponseWriter.fresh, StatusOK,
      ResponseWriter.bodyAllowedForStatus]

theorem foldl_append_Projection (l : List Certificate) (acc : List CertResp) :
    List.foldl (fun crs c => crs ++ [Projection c]) acc l = acc ++ l.map Projection := by
  induction l generalizing acc with
  | nil => simp
  | cons c cs ih => simp [List.foldl, ih]

theorem buildList_eq_map (l : List Certificate) : buildList l = l.map Projection := by
  have h := foldl_append_Projection l []
  simpa using h

/-! ### The paths of `Post` -/

theorem Post_no_body (env : Env σ) (r : Request) (s : σ) (h : r.Body = none) :
    Post env r (Exec.start s) =
      ⟨s, [], ResponseWriter.fresh.Error env.ErrBodyRequired StatusBadRequest⟩ := by
  simp [Post, h, Exec.start, Exec.reply]

theorem Post_bad_body (env : Env σ) (r : Request) (s : σ) (b e : String)
    (h : r.Body = some b) (hd : env.Decode b = .error e) :
    Post env r (Exec.start s) = ⟨s, [], ResponseWriter.fresh.Error e StatusBadRequest⟩ := by
  simp [Post, h, hd, Exec.start, Exec.reply]

theorem Post_save_err (env : Env σ) (r : Request) (s t : σ) (b e : String) (creq : CertReq)
    (c1 : Certificate) (h : r.Body = some b) (hd : env.Decode b = .ok creq)
    (hs : env.cs.SaveCert (env.NewCertificate creq.Domains) s = ((c1, some e), t)) :
    Post env r (Exec.start s) =
      ⟨t, [Call.SaveCert (env.NewCertificate creq.Domains)],
        ResponseWriter.fresh.Error e StatusInternalServerError⟩ := by
  simp [Post, h, hd, hs, Exec.SaveCert, Exec.start, Exec.reply]

theorem Post_marshal_err (env : Env σ) (r : Request) (s t : σ) (b e : String) (creq : CertReq)
    (c1 : Certificate) (h : r.Body = some b) (hd : env.Decode b = .ok creq)
    (hs : env.cs.SaveCert (env.NewCertificate creq.Domains) s = ((c1, none), t))
    (hm : env.Marshal (Projection c1) = .error e) :
    Post env r (Exec.start s) =
      ⟨t, [Call.SaveCert (env.NewCertificate creq.Domains)],
        ResponseWriter.fresh.Error e StatusInternalServerError⟩ := by
  simp only [Projection] at hm
  simp [Post, h, hd, hs, hm, Exec.SaveCert, Exec.start, Exec.reply]

theorem Post_created (env : Env σ) (r : Request) (s t : σ) (b out : String) (creq : CertReq)
    (c1 : Certificate) (h : r.Body = some b) (hd : env.Decode b = .ok creq)
    (hs : env.cs.SaveCert (env.NewCertificate creq.Domains) s = ((c1, none), t))
    (hm : env.Marshal (Projection c1) = .ok out) :
    Post env r (Exec.start s) =
      ⟨t, [Call.SaveCert (env.NewCertificate creq.Domains)], sendCreated out⟩ := by
  simp only [Projection] at hm
  simp [Post, h, hd, hs, hm, Exec.SaveCert, Exec.start, Exec.reply, sendCreated]

theorem sendCreated_status (out : String) : (sendCreated out).status = some 201 := by
  simp [sendCreated, ResponseWriter.WriteHeader, ResponseWriter.HeaderSet,
    ResponseWriter.Write, ResponseWriter.fresh, StatusCreated, StatusOK,
    ResponseWriter.bodyAllowedForStatus]

theorem sendCreated_body (out : String) : (sendCreated out).body = out := by
  simp [sendCreated, ResponseWriter.WriteHeader, ResponseWriter.HeaderSet,
    ResponseWriter.Write, ResponseWriter.fresh, StatusCreated, StatusOK,
    ResponseWriter.bodyAllowedForStatus]

theorem sendCreated_sent (out : String) : (sendCreated out).sent = [] := by
  simp [sendCreated, ResponseWriter.WriteHeader, ResponseWriter.HeaderSet,
    ResponseWriter.Write, ResponseWriter.fresh, StatusCreated, StatusOK,
    ResponseWriter.bodyAllowedForStatus]

theorem map_Projection_congr (l1 l2 : List Certificate)
    (h : List.Forall₂ AgreePublic l1 l2) : l1.map Projection = l2.map Projection := by
  induction h with
  | nil => rfl
  | cons hab _ ih =>
    obtain ⟨h1, h2, h3, h4, h5, h6, h7⟩ := hab
    simp [Projection, h1, h2, h3, h4, h5, h6, h7, ih]

/-! ### Claims -/

/-- C1: two certificates that agree on ID, CommonName, Domains, CertURL,
CertStableURL, Expiry and Issued, whatever their PrivateKey and
CertificateChain, get the same response object, made of exactly those seven
fields copied from the certificate; the whole response of GET by id and of
POST is the same for both and is a function of that object only, and so is
the response of GET list for two listings whose certificates agree pairwise,
whose i-th response object is the projection of the i-th certificate. -/
theorem response_ignores_key_and_chain (env : Env σ) (c1 c2 : Certificate)
    (hagree : AgreePublic c1 c2) :
    Projection c1 = Projection c2 ∧
    ((Projection c1).ID = c1.ID ∧ (Projection c1).CommonName = c1.CommonName ∧
      (Projection c1).Domains = c1.Domains ∧ (Projection c1).CertURL = c1.CertURL ∧
      (Projection c1).CertStableURL = c1.CertStableURL ∧
      (Projection c1).Expiry = c1.Expiry ∧ (Projection c1).Issued = c1.Issued) ∧
    (∀ (r : Request) (s1 s2 t1 t2 : σ), r.Vars "id" ≠ "" →
      env.cs.Cert (r.Vars "id") s1 = ((some c1, none), t1) →
      env.cs.Cert (r.Vars "id") s2 = ((some c2, none), t2) →
      (Get env r (Exec.start s1)).w = sendJSON (env.Marshal (Projection c1)) ∧
        (Get env r (Exec.start s2)).w = (Get env r (Exec.start s1)).w) ∧
    (∀ (r : Request) (s1 s2 t1 t2 : σ) (l1 l2 : List Certificate), r.Vars "id" = "" →
      List.Forall₂ AgreePublic l1 l2 →
      env.cs.AllCerts s1 = ((l1, none), t1) →
      env.cs.AllCerts s2 = ((l2, none), t2) →
      buildList l1 = l1.map Projection ∧
        (Get env r (Exec.start s1)).w = sendJSON (env.MarshalList (l1.map Projection)) ∧
        (Get env r (Exec.start s2)).w = (Get env r (Exec.start s1)).w) ∧
    (∀ (r : Request) (s1 s2 t1 t2 : σ) (b out : String) (creq : CertReq),
      r.Body = some b → env.Decode b = .ok creq →
      env.cs.SaveCert (env.NewCertificate creq.Domains) s1 = ((c1, none), t1) →
      env.cs.SaveCert (env.NewCertificate creq.Domains) s2 = ((c2, none), t2) →
      env.Marshal (Projection c1) = .ok out →
      (Post env r (Exec.start s1)).w = sendCreated out ∧
        (Post env r (Exec.start s2)).w = (Post env r (Exec.start s1)).w) := by
  have hp : Projection c1 = Projection c2 := by
    obtain ⟨h1, h2, h3, h4, h5, h6, h7⟩ := hagree
    simp [Projection, h1, h2, h3, h4, h5, h6, h7]
  refine ⟨hp, ⟨rfl, rfl, rfl, rfl, rfl, rfl, rfl⟩, ?_, ?_, ?_⟩
  · intro r s1 s2 t1 t2 hid h1 h2
    rw [Get_found env r s1 t1 c1 hid h1, Get_found env r s2 t2 c2 hid h2, hp]
    exact ⟨rfl, rfl⟩
  · intro r s1 s2 t1 t2 l1 l2 hid hl h1 h2
    rw [Get_all_ok env r s1 t1 l1 hid h1, Get_all_ok env r s2 t2 l2 hid h2,
      buildList_eq_map, buildList_eq_map, map_Projection_congr l1 l2 hl]
    exact ⟨rfl, rfl, rfl⟩
  · intro r s1 s2 t1 t2 b out creq hb hd h1 h2 hm
    rw [Post_created env r s1 t1 b out creq c1 hb hd h1 hm,
      Post_created env r s2 t2 b out creq c2 hb hd h2 (hp ▸ hm)]
    exact ⟨rfl, rfl⟩

/-- C2: for a non-empty id the status of GET tells the three outcomes of the
lookup apart: it is 404 exactly when the lookup gave no certificate and no
error, 500 exactly when it gave an error, and 200 exactly when it gave a
certificate and no error. -/
theorem get_by_id_status (env : Env σ) (r : Request) (s : σ) (hid : r.Vars "id" ≠ "") :
    ((Get env r (Exec.start s)).w.status = some 404 ↔
        (env.cs.Cert (r.Vars "id") s).1 = (none, none)) ∧
    ((Get env r (Exec.start s)).w.status = some 500 ↔
        ∃ e, (env.cs.Cert (r.Vars "id") s).1.2 = some e) ∧
    ((Get env r (Exec.start s)).w.status = some 200 ↔
        ∃ c, (env.cs.Cert (r.Vars "id") s).1 = (some c, none)) := by
  rcases h : env.cs.Cert (r.Vars "id") s with ⟨⟨u, e⟩, t⟩
  cases e with
  | some e =>
    rw [Get_lookup_err env r s t u e hid h, Error_fresh_status]
    simp [StatusInternalServerError]
  | none =>
    cases u with
    | none =>
      rw [Get_absent env r s t hid h, Error_fresh_status]
      simp [StatusNotFound]
    | some c =>
      rw [Get_found env r s t c hid h, sendJSON_status]
      simp

/-- C4: DELETE with a non-empty id whose lookup reports absence answers 404;
the lookup is the only service invocation, so neither DeleteCert nor
DeleteAllCerts is invoked and the service is left in the state the lookup
returned. -/
theorem delete_absent_is_404 (env : Env σ) (r : Request) (s t : σ)
    (hid : r.Vars "id" ≠ "")
    (habs : env.cs.Cert (r.Vars "id") s = ((none, none), t)) :
    (Delete env r (Exec.start s)).w.status = some 404 ∧
      (Delete env r (Exec.start s)).calls = [Call.Cert (r.Vars "id")] ∧
      (∀ id, Call.DeleteCert id ∉ (Delete env r (Exec.start s)).calls) ∧
      Call.DeleteAllCerts ∉ (Delete env r (Exec.start s)).calls ∧
      (Delete env r (Exec.start s)).st = t := by
  rw [Delete_absent env r s t hid habs]
  simp [ResponseWriter.Error, ResponseWriter.WriteHeader, ResponseWriter.HeaderSet,
    ResponseWriter.Write, ResponseWriter.fresh, StatusNotFound, StatusOK,
    ResponseWriter.bodyAllowedForStatus]

/-- C5: DELETE with an empty id invokes DeleteAllCerts once and nothing else,
and answers 204 exactly when DeleteAllCerts returned no error; DELETE with a
non-empty id never invokes DeleteAllCerts. -/
theorem delete_all_only_on_empty_id (env : Env σ) (r : Request) (s : σ) :
    (r.Vars "id" = "" →
      (Delete env r (Exec.start s)).calls = [Call.DeleteAllCerts] ∧
      ((Delete env r (Exec.start s)).w.status = some 204 ↔
        (env.cs.DeleteAllCerts s).1 = none)) ∧
    (r.Vars "id" ≠ "" → Call.DeleteAllCerts ∉ (Delete env r (Exec.start s)).calls) := by
  constructor
  · intro hid
    rcases h : env.cs.DeleteAllCerts s with ⟨e, t⟩
    cases e with
    | some e =>
      rw [Delete_all_err env r s t e hid h, Error_fresh_status]
      simp [StatusInternalServerError]
    | none =>
      rw [Delete_all_ok env r s t hid h]
      simp [ResponseWriter.WriteHeader, ResponseWriter.fresh, StatusNoContent]
  · intro hid
    rcases h : env.cs.Cert (r.Vars "id") s with ⟨⟨u, e⟩, t⟩
    cases e with
    | some e => rw [Delete_lookup_err env r s t u e hid h]; simp
    | none =>
      cases u with
      | none => rw [Delete_absent env r s t hid h]; simp
      | some c =>
        rcases hd : env.cs.DeleteCert (r.Vars "id") t with ⟨e, t2⟩
        cases e with
        | some e => rw [Delete_found_err env r s t t2 c e hid h hd]; simp
        | none => rw [Delete_found_ok env r s t t2 c hid h hd]; simp

/-- C6: whenever a call to the certificate service returns an error, in
Delete (DeleteAllCerts, the lookup, DeleteCert), in Get (AllCerts, the
lookup) and in Post (SaveCert), that call is the last service invocation of
the handler, the status is 500, the body is the message of the error
followed by the newline that http.Error adds, and the service is left in the
state the failing call returned. -/
theorem service_error_gives_500 (env : Env σ) (r : Request) (s : σ) (e : String) :
    (∀ t, r.Vars "id" = "" → env.cs.DeleteAllCerts s = (some e, t) →
      (Delete env r (Exec.start s)).calls = [Call.DeleteAllCerts] ∧
      (Delete env r (Exec.start s)).w.status = some 500 ∧
      (Delete env r (Exec.start s)).w.body = e ++ "\n" ∧
      (Delete env r (Exec.start s)).st = t) ∧
    (∀ u t, r.Vars "id" ≠ "" → env.cs.Cert (r.Vars "id") s = ((u, some e), t) →
      (Delete env r (Exec.start s)).calls = [Call.Cert (r.Vars "id")] ∧
      (Delete env r (Exec.start s)).w.status = some 500 ∧
      (Delete env r (Exec.start s)).w.body = e ++ "\n" ∧
      (Delete env r (Exec.start s)).st = t) ∧
    (∀ c t t2, r.Vars "id" ≠ "" → env.cs.Cert (r.Vars "id") s = ((some c, none), t) →
      env.cs.DeleteCert (r.Vars "id") t = (some e, t2) →
      (Delete env r (Exec.start s)).calls =
        [Call.Cert (r.Vars "id"), Call.DeleteCert (r.Vars "id")] ∧
      (Delete env r (Exec.start s)).w.status = some 500 ∧
      (Delete env r (Exec.start s)).w.body = e ++ "\n" ∧
      (Delete env r (Exec.start s)).st = t2) ∧
    (∀ l t, r.Vars "id" = "" → env.cs.AllCerts s = ((l, some e), t) →
      (Get env r (Exec.start s)).calls = [Call.AllCerts] ∧
      (Get env r (Exec.start s)).w.status = some 500 ∧
      (Get env r (Exec.start s)).w.body = e ++ "\n" ∧
      (Get env r (Exec.start s)).st = t) ∧
    (∀ u t, r.Vars "id" ≠ "" → env.cs.Cert (r.Vars "id") s = ((u, some e), t) →
      (Get env r (Exec.start s)).calls = [Call.Cert (r.Vars "id")] ∧
      (Get env r (Exec.start s)).w.status = some 500 ∧
      (Get env r (Exec.start s)).w.body = e ++ "\n" ∧
      (Get env r (Exec.start s)).st = t) ∧
    (∀ b creq c1 t, r.Body = some b → env.Decode b = .ok creq →
      env.cs.SaveCert (env.NewCertificate creq.Domains) s = ((c1, some e), t) →
      (Post env r (Exec.start s)).calls = [Call.SaveCert (env.NewCertificate creq.Domains)] ∧
      (Post env r (Exec.start s)).w.status = some 500 ∧
      (Post env r (Exec.start s)).w.body = e ++ "\n" ∧
      (Post env r (Exec.start s)).st = t) := by
  have hs : (ResponseWriter.fresh.Error e StatusInternalServerError).status = some 500 :=
    Error_fresh_status e StatusInternalServerError
  have hb : (ResponseWriter.fresh.Error e StatusInternalServerError).body = e ++ "\n" :=
    Error_fresh_body e StatusInternalServerError (by decide)
  refine ⟨?_, ?_, ?_, ?_, ?_, ?_⟩
  · intro t hid h
    rw [Delete_all_err env r s t e hid h]
    exact ⟨rfl, hs, hb, rfl⟩
  · intro u t hid h
    rw [Delete_lookup_err env r s t u e hid h]
    exact ⟨rfl, hs, hb, rfl⟩
  · intro c t t2 hid h hd
    rw [Delete_found_err env r s t t2 c e hid h hd]
    exact ⟨rfl, hs, hb, rfl⟩
  · intro l t hid h
    rw [Get_all_err env r s t l e hid h]
    exact ⟨rfl, hs, hb, rfl⟩
  · intro u t hid h
    rw [Get_lookup_err env r s t u e hid h]
    exact ⟨rfl, hs, hb, rfl⟩
  · intro b creq c1 t hbody hd h
    rw [Post_save_err env r s t b e creq c1 hbody hd h]
    exact ⟨rfl, hs, hb, rfl⟩

/-- C9, amended: when AllCerts returns a sequence of certificates without
error, GET with an empty id answers 200 and AllCerts is its only service
invocation, so Cert is never invoked; the list built for the response has the
length of that sequence and its i-th element is the seven-field projection of
the i-th certificate; when the JSON encoder accepts that list the body is its
document followed by a newline, and when the encoder rejects it the status
stays 200 and the body is the message of the encoder's error followed by a
newline. -/
theorem get_list_projects_each_cert (env : Env σ) (r : Request) (s t : σ)
    (certs : List Certificate) (hid : r.Vars "id" = "")
    (h : env.cs.AllCerts s = ((certs, none), t)) :
    (Get env r (Exec.start s)).w.status = some 200 ∧
    (Get env r (Exec.start s)).calls = [Call.AllCerts] ∧
    (∀ id, Call.Cert id ∉ (Get env r (Exec.start s)).calls) ∧
    (buildList certs).length = certs.length ∧
    (∀ (i : Nat) (hi : i < certs.length),
      (buildList certs)[i]? = some (Projection (certs.get ⟨i, hi⟩))) ∧
    (Get env r (Exec.start s)).w = sendJSON (env.MarshalList (buildList certs)) ∧
    (∀ doc, env.MarshalList (buildList certs) = .ok doc →
      (Get env r (Exec.start s)).w.body = doc ++ "\n") ∧
    (∀ e, env.MarshalList (buildList certs) = .error e →
      (Get env r (Exec.start s)).w.body = e ++ "\n") ∧
    (Get env r (Exec.start s)).st = t := by
  rw [Get_all_ok env r s t certs hid h]
  refine ⟨sendJSON_status _, rfl, ?_, ?_, ?_, rfl, ?_, ?_, rfl⟩
  · intro id
    simp
  · simp [buildList_eq_map]
  · intro i hi
    simp [buildList_eq_map, List.getElem?_eq_getElem, hi]
  · intro doc hdoc
    simp only [hdoc]
    exact sendJSON_body_ok doc
  · intro e he
    simp only [he]
    exact sendJSON_body_error e

/-- C3, amended: a POST whose decoded Domains sequence is empty is not
validated by the handler; SaveCert is invoked once, on the certificate built
from the empty sequence, and rejecting it is left to the service: when
SaveCert returns an error the handler answers 500 with the message of that
error, and it answers 201 only when SaveCert returned no error. -/
theorem post_empty_domains_left_to_service (env : Env σ) (r : Request) (s : σ) (b : String)
    (creq : CertReq) (hb : r.Body = some b) (hd : env.Decode b = .ok creq)
    (hempty : creq.Domains = []) :
    (Post env r (Exec.start s)).calls = [Call.SaveCert (env.NewCertificate [])] ∧
    (∀ e, (env.cs.SaveCert (env.NewCertificate []) s).1.2 = some e →
      (Post env r (Exec.start s)).w.status = some 500 ∧
      (Post env r (Exec.start s)).w.body = e ++ "\n") ∧
    ((Post env r (Exec.start s)).w.status = some 201 →
      (env.cs.SaveCert (env.NewCertificate []) s).1.2 = none) := by
  rcases h : env.cs.SaveCert (env.NewCertificate []) s with ⟨⟨c1, e⟩, t⟩
  have h2 : env.cs.SaveCert (env.NewCertificate creq.Domains) s = ((c1, e), t) := by
    rw [hempty]; exact h
  cases e with
  | some e =>
    rw [Post_save_err env r s t b e creq c1 hb hd h2, hempty, Error_fresh_status,
      Error_fresh_body e StatusInternalServerError (by decide)]
    simp [StatusInternalServerError]
  | none =>
    cases hm : env.Marshal (Projection c1) with
    | error e =>
      rw [Post_marshal_err env r s t b e creq c1 hb hd h2 hm, hempty]
      simp
    | ok out =>
      rw [Post_created env r s t b out creq c1 hb hd h2 hm, hempty]
      simp

/-- C7, amended: SaveCert is invoked exactly when the body is present and
decodes as a CertReq, and then once, on the certificate built from the
Domains of the request; the status is 201 exactly when SaveCert returned no
error and the projection of the certificate as it stands after SaveCert
marshals to JSON without error, and then the body is that JSON document;
when SaveCert returns an error, or when it returns none and marshalling
fails, the status is 500 and the body is the message of that error; a missing
or undecodable body gives 400 without any service invocation. -/
theorem post_created_iff_saved_and_marshalled (env : Env σ) (r : Request) (s : σ) :
    ((∃ c, Call.SaveCert c ∈ (Post env r (Exec.start s)).calls) ↔
      ∃ b creq, r.Body = some b ∧ env.Decode b = .ok creq) ∧
    (r.Body = none →
      (Post env r (Exec.start s)).w.status = some 400 ∧
      (Post env r (Exec.start s)).calls = []) ∧
    (∀ b e, r.Body = some b → env.Decode b = .error e →
      (Post env r (Exec.start s)).w.status = some 400 ∧
      (Post env r (Exec.start s)).calls = []) ∧
    (∀ b creq, r.Body = some b → env.Decode b = .ok creq →
      (Post env r (Exec.start s)).calls = [Call.SaveCert (env.NewCertificate creq.Domains)] ∧
      ((Post env r (Exec.start s)).w.status = some 201 ↔
        (env.cs.SaveCert (env.NewCertificate creq.Domains) s).1.2 = none ∧
        ∃ out, env.Marshal
          (Projection (env.cs.SaveCert (env.NewCertificate creq.Domains) s).1.1) = .ok out) ∧
      (∀ out, (env.cs.SaveCert (env.NewCertificate creq.Domains) s).1.2 = none →
        env.Marshal
          (Projection (env.cs.SaveCert (env.NewCertificate creq.Domains) s).1.1) = .ok out →
        (Post env r (Exec.start s)).w.status = some 201 ∧
        (Post env r (Exec.start s)).w.body = out) ∧
      (∀ e, (env.cs.SaveCert (env.NewCertificate creq.Domains) s).1.2 = some e →
        (Post env r (Exec.start s)).w.status = some 500 ∧
        (Post env r (Exec.start s)).w.body = e ++ "\n") ∧
      (∀ e, (env.cs.SaveCert (env.NewCertificate creq.Domains) s).1.2 = none →
        env.Marshal
          (Projection (env.cs.SaveCert (env.NewCertificate creq.Domains) s).1.1) = .error e →
        (Post env r (Exec.start s)).w.status = some 500 ∧
        (Post env r (Exec.start s)).w.body = e ++ "\n")) := by
  have hcalls : ∀ b creq, r.Body = some b → env.Decode b = .ok creq →
      (Post env r (Exec.start s)).calls =
        [Call.SaveCert (env.NewCertificate creq.Domains)] := by
    intro b creq hb hd
    rcases h : env.cs.SaveCert (env.NewCertificate creq.Domains) s with ⟨⟨c1, e⟩, t⟩
    cases e with
    | some e => rw [Post_save_err env r s t b e creq c1 hb hd h]
    | none =>
      cases hm : env.Marshal (Projection c1) with
      | error e => rw [Post_marshal_err env r s t b e creq c1 hb hd h hm]
      | ok out => rw [Post_created env r s t b out creq c1 hb hd h hm]
  refine ⟨?_, ?_, ?_, ?_⟩
  · cases hb : r.Body with
    | none =>
      rw [Post_no_body env r s hb]
      simp
    | some b =>
      cases hd : env.Decode b with
      | error e =>
        rw [Post_bad_body env r s b e hb hd]
        simp [hd]
      | ok creq =>
        rw [hcalls b creq hb hd]
        simp [hd]
  · intro hb
    rw [Post_no_body env r s hb, Error_fresh_status]
    simp [StatusBadRequest]
  · intro b e hb hd
    rw [Post_bad_body env r s b e hb hd, Error_fresh_status]
    simp [StatusBadRequest]
  · intro b creq hb hd
    refine ⟨hcalls b creq hb hd, ?_⟩
    rcases h : env.cs.SaveCert (env.NewCertificate creq.Domains) s with ⟨⟨c1, e⟩, t⟩
    cases e with
    | some e =>
      rw [Post_save_err env r s t b e creq c1 hb hd h, Error_fresh_status,
        Error_fresh_body e StatusInternalServerError (by decide)]
      simp [StatusInternalServerError]
    | none =>
      cases hm : env.Marshal (Projection c1) with
      | error e =>
        rw [Post_marshal_err env r s t b e creq c1 hb hd h hm, Error_fresh_status,
          Error_fresh_body e StatusInternalServerError (by decide)]
        simp [StatusInternalServerError, hm]
      | ok out =>
        rw [Post_created env r s t b out creq c1 hb hd h hm, sendCreated_status,
          sendCreated_body]
        simp [hm]

/-! ### Runs on concrete inputs -/

/-- C3, as stated, fails: a POST whose body is the empty JSON object decodes
with Domains absent; the handler invokes SaveCert on the certificate built
from the empty sequence, the in-memory service stores it, and the answer is
201. -/
theorem post_empty_domains_is_saved :
    sampleDecode "\x7b\x7d" = .ok ⟨[]⟩ ∧
    (Post (sampleEnv memStore) (sampleRequest "" (some "\x7b\x7d")) (Exec.start [])).calls =
      [Call.SaveCert (sampleNewCertificate [])] ∧
    (Post (sampleEnv memStore) (sampleRequest "" (some "\x7b\x7d")) (Exec.start [])).w.status =
      some 201 ∧
    (Post (sampleEnv memStore) (sampleRequest "" (some "\x7b\x7d")) (Exec.start [])).st.length =
      1 := by
  refine ⟨rfl, ?_, ?_, ?_⟩ <;> decide

/-- C7, as stated, fails: SaveCert is invoked and returns no error, yet the
answer is 500 and not 201, because the certificate comes back from the save
issued, with a chain, and with an expiry in year 10000, which json.Marshal
rejects. -/
theorem post_saved_but_not_created :
    (longLivedStore.SaveCert (sampleNewCertificate ["example.com"]) []).1.1.Issued = true ∧
    (longLivedStore.SaveCert (sampleNewCertificate ["example.com"]) []).1.1.CertificateChain ≠
      [] ∧
    (Post (sampleEnv longLivedStore)
        (sampleRequest "" (some "\x7b\"Domains\":[\"example.com\"]\x7d")) (Exec.start [])).calls =
      [Call.SaveCert (sampleNewCertificate ["example.com"])] ∧
    (longLivedStore.SaveCert (sampleNewCertificate ["example.com"]) []).1.2 = none ∧
    (Post (sampleEnv longLivedStore)
        (sampleRequest "" (some "\x7b\"Domains\":[\"example.com\"]\x7d"))
        (Exec.start [])).w.status = some 500 := by
  decide

/-- C9, as stated, fails: AllCerts returns two issued certificates without
error, the second with an expiry in year 10000; the JSON encoder rejects the
list, so the answer is 200 with the message of the encoder's error as body
and no list is sent. -/
theorem get_list_answers_error_text :
    memStore.AllCerts [sampleCert, sampleCertLongLived] =
      (([sampleCert, sampleCertLongLived], none), [sampleCert, sampleCertLongLived]) ∧
    sampleCertLongLived.Issued = true ∧ sampleCertLongLived.CertificateChain ≠ [] ∧
    sampleMarshalList (buildList [sampleCert, sampleCertLongLived]) =
      .error
        "json: error calling MarshalJSON for type time.Time: Time.MarshalJSON: year outside of range [0,9999]" ∧
    (Get (sampleEnv memStore) (sampleRequest "" none)
      (Exec.start [sampleCert, sampleCertLongLived])).w.status = some 200 ∧
    (Get (sampleEnv memStore) (sampleRequest "" none)
      (Exec.start [sampleCert, sampleCertLongLived])).w.body =
      "json: error calling MarshalJSON for type time.Time: Time.MarshalJSON: year outside of range [0,9999]\n" := by
  refine ⟨rfl, rfl, ?_, rfl, ?_, ?_⟩ <;> decide

/-- C10 fails on the code: in each successful answer (GET list, GET by id,
POST) the status line is written before the content type is set, so the
headers in effect when the status line is written carry no Content-Type at
all; application/json only reaches the live header map afterwards. -/
theorem content_type_set_after_status_line :
    ((Get (sampleEnv memStore) (sampleRequest "" none) (Exec.start [sampleCert])).w.status =
        some 200 ∧
      ResponseWriter.lookup
        (Get (sampleEnv memStore) (sampleRequest "" none) (Exec.start [sampleCert])).w.sent
        "Content-Type" = none ∧
      ResponseWriter.lookup
        (Get (sampleEnv memStore) (sampleRequest "" none) (Exec.start [sampleCert])).w.header
        "Content-Type" = some "application/json") ∧
    ((Get (sampleEnv memStore) (sampleRequest "c1" none) (Exec.start [sampleCert])).w.status =
        some 200 ∧
      ResponseWriter.lookup
        (Get (sampleEnv memStore) (sampleRequest "c1" none) (Exec.start [sampleCert])).w.sent
        "Content-Type" = none ∧
      ResponseWriter.lookup
        (Get (sampleEnv memStore) (sampleRequest "c1" none) (Exec.start [sampleCert])).w.header
        "Content-Type" = some "application/json") ∧
    ((Post (sampleEnv memStore)
        (sampleRequest "" (some "\x7b\"Domains\":[\"example.com\"]\x7d"))
        (Exec.start [])).w.status = some 201 ∧
      ResponseWriter.lookup
        (Post (sampleEnv memStore)
          (sampleRequest "" (some "\x7b\"Domains\":[\"example.com\"]\x7d"))
          (Exec.start [])).w.sent "Content-Type" = none ∧
      ResponseWriter.lookup
        (Post (sampleEnv memStore)
          (sampleRequest "" (some "\x7b\"Domains\":[\"example.com\"]\x7d"))
          (Exec.start [])).w.header "Content-Type" = some "application/json") := by
  decide

/-! ### The claims at concrete inputs -/

/-- Witness of C1: a stored certificate and the same certificate with other key
material and chain get the same answer from GET by id. -/
theorem response_ignores_key_and_chain_witness :
    AgreePublic sampleCert sampleCertRekeyed ∧
    sampleCert.PrivateKey ≠ sampleCertRekeyed.PrivateKey ∧
    sampleCert.CertificateChain ≠ sampleCertRekeyed.CertificateChain ∧
    Projection sampleCert = Projection sampleCertRekeyed ∧
    (Get (sampleEnv memStore) (sampleRequest "c1" none) (Exec.start [sampleCertRekeyed])).w =
      (Get (sampleEnv memStore) (sampleRequest "c1" none) (Exec.start [sampleCert])).w :=
  ⟨by unfold AgreePublic; decide, by decide, by decide,
    (response_ignores_key_and_chain (sampleEnv memStore) sampleCert sampleCertRekeyed
      (by unfold AgreePublic; decide)).1,
    ((response_ignores_key_and_chain (sampleEnv memStore) sampleCert sampleCertRekeyed
      (by unfold AgreePublic; decide)).2.2.1
      (sampleRequest "c1" none) [sampleCert] [sampleCertRekeyed] [sampleCert]
      [sampleCertRekeyed] (by decide) rfl rfl).2⟩

/-- Witness of C2: GET by id on an empty in-memory store. -/
theorem get_by_id_status_witness :
    (sampleRequest "c1" none).Vars "id" ≠ "" ∧
    (((Get (sampleEnv memStore) (sampleRequest "c1" none) (Exec.start [])).w.status = some 404 ↔
        ((sampleEnv memStore).cs.Cert ((sampleRequest "c1" none).Vars "id") []).1 =
          (none, none)) ∧
    ((Get (sampleEnv memStore) (sampleRequest "c1" none) (Exec.start [])).w.status = some 500 ↔
        ∃ e, ((sampleEnv memStore).cs.Cert ((sampleRequest "c1" none).Vars "id") []).1.2 =
          some e) ∧
    ((Get (sampleEnv memStore) (sampleRequest "c1" none) (Exec.start [])).w.status = some 200 ↔
        ∃ c, ((sampleEnv memStore).cs.Cert ((sampleRequest "c1" none).Vars "id") []).1 =
          (some c, none))) :=
  ⟨by decide, get_by_id_status (sampleEnv memStore) (sampleRequest "c1" none) [] (by decide)⟩

/-- Witness of C4: DELETE of an id the in-memory store does not hold. -/
theorem delete_absent_is_404_witness :
    (sampleRequest "c1" none).Vars "id" ≠ "" ∧
    (sampleEnv memStore).cs.Cert ((sampleRequest "c1" none).Vars "id") [] = ((none, none), []) ∧
    (Delete (sampleEnv memStore) (sampleRequest "c1" none) (Exec.start [])).w.status =
      some 404 ∧
    (Delete (sampleEnv memStore) (sampleRequest "c1" none) (Exec.start [])).st = [] :=
  ⟨by decide, rfl,
    (delete_absent_is_404 (sampleEnv memStore) (sampleRequest "c1" none) [] [] (by decide)
      rfl).1,
    (delete_absent_is_404 (sampleEnv memStore) (sampleRequest "c1" none) [] [] (by decide)
      rfl).2.2.2.2⟩

/-- Witness of C5: DELETE with an empty id and with the id of a stored
certificate. -/
theorem delete_all_only_on_empty_id_witness :
    (sampleRequest "" none).Vars "id" = "" ∧
    (sampleRequest "c1" none).Vars "id" ≠ "" ∧
    (Delete (sampleEnv memStore) (sampleRequest "" none) (Exec.start [sampleCert])).calls =
      [Call.DeleteAllCerts] ∧
    Call.DeleteAllCerts ∉
      (Delete (sampleEnv memStore) (sampleRequest "c1" none) (Exec.start [sampleCert])).calls :=
  ⟨by decide, by decide,
    ((delete_all_only_on_empty_id (sampleEnv memStore) (sampleRequest "" none)
      [sampleCert]).1 (by decide)).1,
    (delete_all_only_on_empty_id (sampleEnv memStore) (sampleRequest "c1" none)
      [sampleCert]).2 (by decide)⟩

/-- Witness of C6: DELETE of a stored certificate on a read-only store, where the
lookup succeeds and DeleteCert fails. -/
theorem service_error_gives_500_witness :
    (sampleRequest "c1" none).Vars "id" ≠ "" ∧
    (sampleEnv readOnlyStore).cs.Cert ((sampleRequest "c1" none).Vars "id") [sampleCert] =
      ((some sampleCert, none), [sampleCert]) ∧
    (sampleEnv readOnlyStore).cs.DeleteCert ((sampleRequest "c1" none).Vars "id") [sampleCert] =
      (some "store is read-only", [sampleCert]) ∧
    ((Delete (sampleEnv readOnlyStore) (sampleRequest "c1" none) (Exec.start [sampleCert])).calls =
        [Call.Cert ((sampleRequest "c1" none).Vars "id"),
          Call.DeleteCert ((sampleRequest "c1" none).Vars "id")] ∧
      (Delete (sampleEnv readOnlyStore) (sampleRequest "c1" none)
        (Exec.start [sampleCert])).w.status = some 500 ∧
      (Delete (sampleEnv readOnlyStore) (sampleRequest "c1" none)
        (Exec.start [sampleCert])).w.body = "store is read-only" ++ "\n" ∧
      (Delete (sampleEnv readOnlyStore) (sampleRequest "c1" none) (Exec.start [sampleCert])).st =
        [sampleCert]) :=
  ⟨by decide, rfl, rfl,
    (service_error_gives_500 (sampleEnv readOnlyStore) (sampleRequest "c1" none) [sampleCert]
      "store is read-only").2.2.1 sampleCert [sampleCert] [sampleCert] (by decide) rfl rfl⟩

/-- Witness of C9: GET list on an in-memory store holding two certificates. -/
theorem get_list_projects_each_cert_witness :
    (sampleRequest "" none).Vars "id" = "" ∧
    (sampleEnv memStore).cs.AllCerts [sampleCert, sampleCertRekeyed] =
      (([sampleCert, sampleCertRekeyed], none), [sampleCert, sampleCertRekeyed]) ∧
    (Get (sampleEnv memStore) (sampleRequest "" none)
      (Exec.start [sampleCert, sampleCertRekeyed])).w.status = some 200 ∧
    (Get (sampleEnv memStore) (sampleRequest "" none)
      (Exec.start [sampleCert, sampleCertRekeyed])).calls = [Call.AllCerts] ∧
    (buildList [sampleCert, sampleCertRekeyed]).length =
      [sampleCert, sampleCertRekeyed].length :=
  ⟨by decide, rfl,
    (get_list_projects_each_cert (sampleEnv memStore) (sampleRequest "" none)
      [sampleCert, sampleCertRekeyed] [sampleCert, sampleCertRekeyed]
      [sampleCert, sampleCertRekeyed] (by decide) rfl).1,
    (get_list_projects_each_cert (sampleEnv memStore) (sampleRequest "" none)
      [sampleCert, sampleCertRekeyed] [sampleCert, sampleCertRekeyed]
      [sampleCert, sampleCertRekeyed] (by decide) rfl).2.1,
    (get_list_projects_each_cert (sampleEnv memStore) (sampleRequest "" none)
      [sampleCert, sampleCertRekeyed] [sampleCert, sampleCertRekeyed]
      [sampleCert, sampleCertRekeyed] (by decide) rfl).2.2.2.1⟩

/-- Witness of C3, amended: POST of the empty JSON object on a read-only store. -/
theorem post_empty_domains_left_to_service_witness :
    (sampleRequest "" (some "\x7b\x7d")).Body = some "\x7b\x7d" ∧
    (sampleEnv readOnlyStore).Decode "\x7b\x7d" = .ok ⟨[]⟩ ∧
    (Post (sampleEnv readOnlyStore) (sampleRequest "" (some "\x7b\x7d")) (Exec.start [])).calls =
      [Call.SaveCert ((sampleEnv readOnlyStore).NewCertificate [])] ∧
    ((Post (sampleEnv readOnlyStore) (sampleRequest "" (some "\x7b\x7d"))
        (Exec.start [])).w.status = some 500 ∧
      (Post (sampleEnv readOnlyStore) (sampleRequest "" (some "\x7b\x7d"))
        (Exec.start [])).w.body = "store is read-only" ++ "\n") :=
  ⟨rfl, rfl,
    (post_empty_domains_left_to_service (sampleEnv readOnlyStore)
      (sampleRequest "" (some "\x7b\x7d")) [] "\x7b\x7d" ⟨[]⟩ rfl rfl rfl).1,
    (post_empty_domains_left_to_service (sampleEnv readOnlyStore)
      (sampleRequest "" (some "\x7b\x7d")) [] "\x7b\x7d" ⟨[]⟩ rfl rfl rfl).2.1
      "store is read-only" rfl⟩

/-- Witness of C7, amended: POST of one domain on an empty in-memory store,
answered 201, and on a store that issues with an expiry in year 10000,
answered 500 with the message of the marshalling error. -/
theorem post_created_iff_saved_and_marshalled_witness :
    (sampleRequest "" (some "\x7b\"Domains\":[\"example.com\"]\x7d")).Body =
      some "\x7b\"Domains\":[\"example.com\"]\x7d" ∧
    (sampleEnv memStore).Decode "\x7b\"Domains\":[\"example.com\"]\x7d" =
      .ok ⟨["example.com"]⟩ ∧
    (Post (sampleEnv memStore) (sampleRequest "" (some "\x7b\"Domains\":[\"example.com\"]\x7d"))
      (Exec.start [])).calls =
        [Call.SaveCert ((sampleEnv memStore).NewCertificate ["example.com"])] ∧
    ((Post (sampleEnv memStore) (sampleRequest "" (some "\x7b\"Domains\":[\"example.com\"]\x7d"))
        (Exec.start [])).w.status = some 201 ∧
      (Post (sampleEnv memStore) (sampleRequest "" (some "\x7b\"Domains\":[\"example.com\"]\x7d"))
        (Exec.start [])).w.body = "cert-0") ∧
    ((Post (sampleEnv longLivedStore)
        (sampleRequest "" (some "\x7b\"Domains\":[\"example.com\"]\x7d"))
        (Exec.start [])).w.status = some 500 ∧
      (Post (sampleEnv longLivedStore)
        (sampleRequest "" (some "\x7b\"Domains\":[\"example.com\"]\x7d"))
        (Exec.start [])).w.body =
        "json: error calling MarshalJSON for type time.Time: Time.MarshalJSON: year outside of range [0,9999]"
          ++ "\n") :=
  ⟨rfl, rfl,
    ((post_created_iff_saved_and_marshalled (sampleEnv memStore)
      (sampleRequest "" (some "\x7b\"Domains\":[\"example.com\"]\x7d")) []).2.2.2
      "\x7b\"Domains\":[\"example.com\"]\x7d" ⟨["example.com"]⟩ rfl rfl).1,
    ((post_created_iff_saved_and_marshalled (sampleEnv memStore)
      (sampleRequest "" (some "\x7b\"Domains\":[\"example.com\"]\x7d")) []).2.2.2
      "\x7b\"Domains\":[\"example.com\"]\x7d" ⟨["example.com"]⟩ rfl rfl).2.2.1
      "cert-0" rfl rfl,
    ((post_created_iff_saved_and_marshalled (sampleEnv longLivedStore)
      (sampleRequest "" (some "\x7b\"Domains\":[\"example.com\"]\x7d")) []).2.2.2
      "\x7b\"Domains\":[\"example.com\"]\x7d" ⟨["example.com"]⟩ rfl rfl).2.2.2.2
      "json: error calling MarshalJSON for type time.Time: Time.MarshalJSON: year outside of range [0,9999]"
      rfl rfl⟩

end Results

end TLSential
